import Mathlib

/-!
Verification development for the video-downloader bot's download-and-fit
pipeline (src/main.py, src/video_downloader.py).  Python float arithmetic is
embedded as exact rational arithmetic over ℚ; `int(...)` truncation is
`pyInt`; external tools (ffprobe, ffmpeg, yt-dlp) are embedded as oracles
recording whether the invocation raised, its exit code, whether it left an
output file, and that file's size.  Fallible functions return `Option`, as
the Python code returns `Optional` values.
-/

/-- Truncation toward zero, the behaviour of Python's `int()` on a float. -/
def pyInt (q : ℚ) : ℤ := if 0 ≤ q then ⌊q⌋ else ⌈q⌉

/-- Stage-1 target bitrate, src/video_downloader.py line 160:
`int((max_size_bytes * 0.8 * 8) / duration / 1000)`. -/
def stage1Target (max_size_bytes : ℕ) (duration : ℚ) : ℤ :=
  pyInt ((max_size_bytes : ℚ) * (8 / 10) * 8 / duration / 1000)

/-- Stage-2 target bitrate, src/video_downloader.py line 220:
`int((max_size_bytes * 0.6 * 8) / duration / 1000)`. -/
def stage2Target (max_size_bytes : ℕ) (duration : ℚ) : ℤ :=
  pyInt ((max_size_bytes : ℚ) * (6 / 10) * 8 / duration / 1000)

/-- Oracle for one run of the external ffprobe tool
(src/video_downloader.py lines 272-307): whether `subprocess.run` raised,
the exit code, and the duration parsed from the JSON report (`none` when the
report is unparseable or the duration field is missing, in which case the
Python code raises and the exception is caught at the boundary). -/
structure ProbeResult where
  raises : Bool
  returncode : ℤ
  durationField : Option ℚ
deriving DecidableEq, Repr

/-- `_get_video_duration` (src/video_downloader.py lines 272-307): returns the
parsed duration on exit code 0, `None` on non-zero exit, a raised exception,
or a missing/unparseable duration field. -/
def get_video_duration (p : ProbeResult) : Option ℚ :=
  if p.raises then none
  else if p.returncode = 0 then p.durationField
  else none

/-- Oracle for one run of the external ffmpeg tool: whether `subprocess.run`
raised, its exit code, whether a file exists at the output path afterwards,
and that file's size in bytes.  A raised spawn means ffmpeg never ran, so no
output file was written. -/
structure EncodeResult where
  raises : Bool
  returncode : ℤ
  wroteFile : Bool
  fileSize : ℕ
deriving DecidableEq, Repr

/-- The two encode output paths of one compression request:
`<base>_compressed.mp4` (stage 1, src/video_downloader.py line 168) and
`<base>_compressed_aggressive.mp4` (stage 2, line 226). -/
inductive OutPath where
  | stage1
  | stage2
deriving DecidableEq, Repr

/-- Which encode output files are on disk after the request completes. -/
structure FSState where
  stage1OnDisk : Bool
  stage2OnDisk : Bool
deriving DecidableEq, Repr

/-- Observable outcome of one compression request: the returned value
(`none` is Python's `None`), the surviving encode outputs, and which of the
two ffmpeg encodes were actually launched. -/
structure CompressTrace where
  result : Option OutPath
  fs : FSState
  stage1Invoked : Bool
  stage2Invoked : Bool
deriving DecidableEq, Repr

/-- The trace of a request rejected before any encode is launched. -/
def rejectNoEncode : CompressTrace :=
  { result := none, fs := ⟨false, false⟩, stage1Invoked := false, stage2Invoked := false }

/-- `_compress_aggressively` (src/video_downloader.py lines 216-270): compute
the stage-2 bitrate; below 50 kbps return `None` without encoding; otherwise
run ffmpeg; on exit 0 with an existing output, accept it iff its size is
`<= max_size_bytes`, deleting it (`os.remove`, line 262) when oversized; on
non-zero exit or a raised spawn return `None` (any partial output file is
left on disk). -/
def compress_aggressively (max_size_bytes : ℕ) (duration : ℚ)
    (enc2 : EncodeResult) : CompressTrace :=
  if stage2Target max_size_bytes duration < 50 then
    rejectNoEncode
  else if enc2.raises then
    { result := none, fs := ⟨false, false⟩, stage1Invoked := false, stage2Invoked := true }
  else if enc2.returncode = 0 ∧ enc2.wroteFile then
    if enc2.fileSize ≤ max_size_bytes then
      { result := some .stage2, fs := ⟨false, true⟩, stage1Invoked := false, stage2Invoked := true }
    else
      { result := none, fs := ⟨false, false⟩, stage1Invoked := false, stage2Invoked := true }
  else
    { result := none, fs := ⟨false, enc2.wroteFile⟩, stage1Invoked := false, stage2Invoked := true }

/-- `compress_video` (src/video_downloader.py lines 146-214): missing input or
a falsy probed duration (`None` or `0.0`, line 155 `if not duration`) returns
`None`; stage-1 bitrate below 100 kbps returns `None` without encoding;
otherwise run ffmpeg; on exit 0 with an existing output, accept it iff its
size is `<= max_size_bytes`, else delete it (`os.remove`, line 206) and fall
through to `_compress_aggressively`; on non-zero exit or a raised spawn
return `None` (any partial output file is left on disk). -/
def compress_video (inputExists : Bool) (max_size_bytes : ℕ) (probe : ProbeResult)
    (enc1 enc2 : EncodeResult) : CompressTrace :=
  if inputExists = false then rejectNoEncode
  else
    match get_video_duration probe with
    | none => rejectNoEncode
    | some d =>
      if d = 0 then rejectNoEncode
      else if stage1Target max_size_bytes d < 100 then rejectNoEncode
      else if enc1.raises then
        { result := none, fs := ⟨false, false⟩, stage1Invoked := true, stage2Invoked := false }
      else if enc1.returncode = 0 ∧ enc1.wroteFile then
        if enc1.fileSize ≤ max_size_bytes then
          { result := some .stage1, fs := ⟨true, false⟩, stage1Invoked := true,
            stage2Invoked := false }
        else
          let t := compress_aggressively max_size_bytes d enc2
          { result := t.result, fs := t.fs, stage1Invoked := true,
            stage2Invoked := t.stage2Invoked }
      else
        { result := none, fs := ⟨enc1.wroteFile, false⟩, stage1Invoked := true,
          stage2Invoked := false }

/-- One encoding variant of a source video, as reported by the extraction
engine (a yt-dlp format dict).  `Option` fields model keys that may be
absent from the dict; `format_note` defaults to `""` as in
`fmt.get('format_note', '')` (src/video_downloader.py line 69). -/
structure MediaFormat where
  format_id : String
  vcodec : Option String
  url : Option String
  format_note : String
  height : Option ℤ
  ext : String
  filesize : Option ℤ
deriving DecidableEq, Repr

/-- Python's `'pat' in s`: `pat.data` occurs as a contiguous infix of `s.data`. -/
def containsSubstr (s pat : String) : Bool := decide (pat.data <:+: s.data)

/-- Python's `str.lower()`: lower-case every character. -/
def strLower (s : String) : String := ⟨s.data.map Char.toLower⟩

/-- Python truthiness of `fmt.get('url')`: the key is present and non-empty. -/
def urlTruthy (f : MediaFormat) : Bool :=
  match f.url with
  | none => false
  | some s => s ≠ ""

/-- `fmt.get('height', 0)`: the height with an absent height treated as 0
(src/video_downloader.py line 74, src/main.py lines 183 and 186). -/
def heightKey (f : MediaFormat) : ℤ := f.height.getD 0

/-- `_is_format_downloadable` (src/video_downloader.py lines 58-82): drop
audio-only formats, formats without a truthy url, formats whose note contains
"unavailable" (case-insensitively, guarded by the note being truthy), heights
strictly between 0 and 144, and formats with `filesize == 0`. -/
def is_format_downloadable (f : MediaFormat) : Bool :=
  if f.vcodec = some "none" then false
  else if urlTruthy f = false then false
  else if f.format_note ≠ "" ∧ containsSubstr (strLower f.format_note) "unavailable" then false
  else if 0 < heightKey f ∧ heightKey f < 144 then false
  else if f.filesize = some 0 then false
  else true

/-- The `valid_formats` list built inside `get_video_info`
(src/video_downloader.py lines 41-45): keep exactly the downloadable formats. -/
def valid_formats (formats : List MediaFormat) : List MediaFormat :=
  formats.filter is_format_downloadable

/-- The spec's description of a format that must be absent from the catalog
output: video codec "none", missing/empty source url, note containing the
case-insensitive substring "unavailable", height strictly between 0 and 144,
or filesize equal to 0. -/
def specBadFormat (f : MediaFormat) : Prop :=
  f.vcodec = some "none" ∨ urlTruthy f = false ∨
    containsSubstr (strLower f.format_note) "unavailable" = true ∨
    (0 < heightKey f ∧ heightKey f < 144) ∨ f.filesize = some 0

instance : DecidablePred specBadFormat := fun f => by
  unfold specBadFormat
  infer_instance

/-- Metadata for one URL lookup: title, duration, uploader and the reported
formats (src/main.py lines 217-219, src/video_downloader.py lines 40-45). -/
structure VideoInfo where
  title : String
  duration : Option ℚ
  uploader : String
  formats : List MediaFormat
deriving DecidableEq, Repr

/-- `get_video_info` (src/video_downloader.py lines 33-56): the extraction
engine either raises (any exception is caught at the boundary and converted
to `None`) or yields `info`; on success the format list is replaced by
`valid_formats`. -/
def get_video_info (extractionRaises : Bool) (info : Option VideoInfo) : Option VideoInfo :=
  if extractionRaises then none
  else
    match info with
    | none => none
    | some v => some { v with formats := valid_formats v.formats }

/-- `download_video`'s boundary behaviour (src/video_downloader.py lines
84-144): the extraction-download either raises (caught and converted to
`None`) or resolves to an optional local file path. -/
def download_video (downloadRaises : Bool) (resolved : Option String) : Option String :=
  if downloadRaises then none else resolved

/-- Insert a format into a list that is already sorted by non-increasing
`heightKey`, placing it before the first entry of equal-or-smaller height.
This is the insertion step of the unique stable non-increasing sort, the
behaviour of CPython's stable `list.sort(key=..., reverse=True)`. -/
def insertDesc (f : MediaFormat) : List MediaFormat → List MediaFormat
  | [] => [f]
  | g :: gs => if heightKey g ≤ heightKey f then f :: g :: gs else g :: insertDesc f gs

/-- `video_formats.sort(key=lambda x: x.get('height', 0), reverse=True)`
(src/main.py line 183): the stable sort by non-increasing height, realised as
a stable insertion sort. -/
def sortFormats : List MediaFormat → List MediaFormat
  | [] => []
  | f :: fs => insertDesc f (sortFormats fs)

/-- `good_formats` (src/main.py line 186): the ranked formats of height at
least 360. -/
def good_formats (ranked : List MediaFormat) : List MediaFormat :=
  ranked.filter (fun f => 360 ≤ heightKey f)

/-- The observable branching of `handle_url` after ranking (src/main.py lines
186-240): either a quality-selection request listing at most the top five
good formats (plus the synthetic "Best Quality Available" button), or a
direct download with the "best" selector. -/
inductive PipelineAction where
  | selectionRequired (options : List MediaFormat) (extraBestButton : Bool)
  | autoDownload (format_id : String)
deriving DecidableEq, Repr

/-- `handle_url`'s format branching (src/main.py lines 182-240), taking the
already-filtered `video_formats` list: sort by non-increasing height, collect
the good formats (height ≥ 360), and require a selection exactly when more
than one good format exists, offering `good_formats[:5]` plus the synthetic
best option; otherwise download directly with format selector "best". -/
def handle_url_selection (video_formats : List MediaFormat) : PipelineAction :=
  let ranked := sortFormats video_formats
  let good := good_formats ranked
  if 1 < good.length then .selectionRequired (good.take 5) true
  else .autoDownload "best"

/-- The Telegram bot delivery ceiling, src/main.py line 301:
`max_size = 50 * 1024 * 1024`. -/
def telegramMaxSize : ℕ := 50 * 1024 * 1024

/-- The compression trigger of `download_and_send_video` (src/main.py line
303): compression is invoked exactly when `file_size > max_size`. -/
def shouldCompress (file_size : ℕ) : Bool := telegramMaxSize < file_size

/-- `pyInt` agrees with the floor on nonnegative arguments. -/
theorem pyInt_eq_floor {q : ℚ} (h : 0 ≤ q) : pyInt q = ⌊q⌋ := by
  unfold pyInt
  rw [if_pos h]

/-- The stage-1 bitrate for a 120-second input under a 50,000,000-byte ceiling. -/
theorem stage1Target_eval_120 : stage1Target 50000000 120 = 2666 := by
  unfold stage1Target
  rw [pyInt_eq_floor (by positivity)]
  norm_num

/-- The stage-1 bitrate for a 4000-second input under a 50,000,000-byte ceiling. -/
theorem stage1Target_eval_4000 : stage1Target 50000000 4000 = 80 := by
  unfold stage1Target
  rw [pyInt_eq_floor (by positivity)]
  norm_num

/-- The stage-2 bitrate for a 120-second input under a 50,000,000-byte ceiling. -/
theorem stage2Target_eval_120 : stage2Target 50000000 120 = 2000 := by
  unfold stage2Target
  rw [pyInt_eq_floor (by positivity)]
  norm_num

/-- The stage-2 bitrate for a 50000-second input under a 50,000,000-byte ceiling. -/
theorem stage2Target_eval_50000 : stage2Target 50000000 50000 = 4 := by
  unfold stage2Target
  rw [pyInt_eq_floor (by positivity)]
  norm_num

/-- A format passes `_is_format_downloadable` exactly when it triggers none of
the spec's five rejection conditions; the code's extra truthiness guard on the
note is redundant because the empty note contains no substring. -/
theorem is_format_downloadable_iff (f : MediaFormat) :
    is_format_downloadable f = true ↔ ¬ specBadFormat f := by
  unfold is_format_downloadable specBadFormat
  by_cases hn : f.format_note = ""
  · have hsub : containsSubstr (strLower f.format_note) "unavailable" = false := by
      rw [hn]
      decide
    split_ifs <;> simp_all
  · split_ifs <;> simp_all

/-- The non-increasing-height ordering used by the ranking. -/
def heightGE (a b : MediaFormat) : Prop := heightKey b ≤ heightKey a

/-- Membership in an insertion step. -/
theorem mem_insertDesc {x f : MediaFormat} {l : List MediaFormat} :
    x ∈ insertDesc f l ↔ x = f ∨ x ∈ l := by
  induction l with
  | nil => simp [insertDesc]
  | cons g gs ih =>
    rw [insertDesc]
    split
    · simp [List.mem_cons]
    · simp only [List.mem_cons, ih]
      tauto

/-- Insertion preserves the non-increasing-height ordering. -/
theorem pairwise_insertDesc {f : MediaFormat} {l : List MediaFormat}
    (h : l.Pairwise heightGE) : (insertDesc f l).Pairwise heightGE := by
  induction l with
  | nil => simp [insertDesc, heightGE]
  | cons g gs ih =>
    rcases List.pairwise_cons.mp h with ⟨hg, hgs⟩
    rw [insertDesc]
    split
    · next hc =>
      refine List.Pairwise.cons ?_ h
      intro b hb
      rcases List.mem_cons.mp hb with rfl | hb
      · exact hc
      · exact le_trans (hg b hb) hc
    · next hc =>
      refine List.Pairwise.cons ?_ (ih hgs)
      intro b hb
      rcases mem_insertDesc.mp hb with rfl | hb
      · exact le_of_lt (lt_of_not_le hc)
      · exact hg b hb

/-- The ranked list is ordered by non-increasing height. -/
theorem sortFormats_pairwise (l : List MediaFormat) : (sortFormats l).Pairwise heightGE := by
  induction l with
  | nil => simp [sortFormats]
  | cons f fs ih => exact pairwise_insertDesc ih

/-- Filtering one height class through an insertion step: the inserted format
lands in front of its own height class and leaves every other class alone. -/
theorem filter_insertDesc (f : MediaFormat) (l : List MediaFormat) (h : ℤ) :
    (insertDesc f l).filter (fun g => heightKey g = h) =
      if heightKey f = h then f :: l.filter (fun g => heightKey g = h)
      else l.filter (fun g => heightKey g = h) := by
  induction l with
  | nil =>
    by_cases hf : heightKey f = h
    · rw [if_pos hf]
      simp [insertDesc, hf]
    · rw [if_neg hf]
      simp [insertDesc, hf]
  | cons g gs ih =>
    rw [insertDesc]
    by_cases hc : heightKey g ≤ heightKey f
    · rw [if_pos hc]
      by_cases hf : heightKey f = h
      · rw [if_pos hf]
        simp [List.filter_cons, hf]
      · rw [if_neg hf]
        simp [List.filter_cons, hf]
    · rw [if_neg hc]
      by_cases hf : heightKey f = h
      · rw [if_pos hf]
        have hg : ¬ heightKey g = h := by
          intro hgh
          exact hc (le_of_eq (hf ▸ hgh))
        simp [List.filter_cons, hg, ih, hf]
      · rw [if_neg hf]
        simp only [List.filter_cons, ih, if_neg hf]

/-- Stability of the ranking: each height class keeps its original order. -/
theorem sortFormats_filter_eq (l : List MediaFormat) (h : ℤ) :
    (sortFormats l).filter (fun g => heightKey g = h) =
      l.filter (fun g => heightKey g = h) := by
  induction l with
  | nil => rfl
  | cons f fs ih =>
    show (insertDesc f (sortFormats fs)).filter _ = _
    rw [filter_insertDesc]
    by_cases hf : heightKey f = h
    · rw [if_pos hf, ih, List.filter_cons, if_pos (by simp [hf])]
    · rw [if_neg hf, ih, List.filter_cons, if_neg (by simp [hf])]

/-- An insertion step permutes the inserted element to the front. -/
theorem insertDesc_perm (f : MediaFormat) (l : List MediaFormat) :
    (insertDesc f l).Perm (f :: l) := by
  induction l with
  | nil => exact List.Perm.refl _
  | cons g gs ih =>
    rw [insertDesc]
    split
    · exact List.Perm.refl _
    · exact (ih.cons g).trans (List.Perm.swap f g gs)

/-- The ranked list is a permutation of its input. -/
theorem sortFormats_perm (l : List MediaFormat) : (sortFormats l).Perm l := by
  induction l with
  | nil => exact List.Perm.refl _
  | cons f fs ih =>
    show (insertDesc f (sortFormats fs)).Perm (f :: fs)
    exact (insertDesc_perm f (sortFormats fs)).trans (ih.cons f)

/-- The aggressive stage never returns the stage-1 output path. -/
theorem aggressive_result_ne_stage1 (m : ℕ) (d : ℚ) (e2 : EncodeResult) :
    (compress_aggressively m d e2).result ≠ some OutPath.stage1 := by
  unfold compress_aggressively rejectNoEncode
  split_ifs <;> simp

/-- C2: for every ceiling and every positive probed duration, the stage-1
target bitrate computed by the planner equals
`floor(max_size_bytes * 0.8 * 8 / duration_seconds / 1000)` kbps; in
particular at duration 120 s and ceiling 50,000,000 bytes it is 2666 kbps. -/
theorem C2_stage1_bitrate_formula :
    (∀ (m : ℕ) (d : ℚ), 0 < d →
        stage1Target m d = ⌊(m : ℚ) * (8 / 10) * 8 / d / 1000⌋) ∧
    stage1Target 50000000 120 = 2666 := by
  refine ⟨fun m d hd => ?_, stage1Target_eval_120⟩
  exact pyInt_eq_floor (div_nonneg (div_nonneg (by positivity) hd.le) (by norm_num))

/-- C2 witness: the formula instantiated at duration 120 s, ceiling
50,000,000 bytes. -/
theorem C2_stage1_bitrate_formula_witness :
    stage1Target 50000000 120 = ⌊(50000000 : ℚ) * (8 / 10) * 8 / 120 / 1000⌋ :=
  C2_stage1_bitrate_formula.1 50000000 120 (by norm_num)

/-- C3: whenever the planner advances from stage 1 to stage 2 (the stage-1
target was at least 100 kbps and the successful stage-1 output exceeded the
ceiling), the stage-2 target bitrate is strictly less than the stage-1
target bitrate. -/
theorem C3_stage2_lt_stage1 (m : ℕ) (probe : ProbeResult) (enc1 : EncodeResult) (d : ℚ)
    (hdur : get_video_duration probe = some d) (hd : 0 < d)
    (h100 : 100 ≤ stage1Target m d)
    (hraise : enc1.raises = false) (hrc : enc1.returncode = 0)
    (hwrote : enc1.wroteFile = true) (hbig : m < enc1.fileSize) :
    stage2Target m d < stage1Target m d := by
  have ha : (0:ℚ) ≤ (m : ℚ) * (8 / 10) * 8 / d / 1000 :=
    div_nonneg (div_nonneg (by positivity) hd.le) (by norm_num)
  have hb : (0:ℚ) ≤ (m : ℚ) * (6 / 10) * 8 / d / 1000 :=
    div_nonneg (div_nonneg (by positivity) hd.le) (by norm_num)
  rw [stage1Target, pyInt_eq_floor ha] at h100
  rw [stage1Target, stage2Target, pyInt_eq_floor ha, pyInt_eq_floor hb]
  have haq : (100 : ℚ) ≤ (m : ℚ) * (8 / 10) * 8 / d / 1000 := by
    exact_mod_cast Int.le_floor.mp h100
  have hba : (m : ℚ) * (6 / 10) * 8 / d / 1000 =
      ((m : ℚ) * (8 / 10) * 8 / d / 1000) * (3 / 4) := by
    ring
  have hble : (m : ℚ) * (6 / 10) * 8 / d / 1000 ≤
      (m : ℚ) * (8 / 10) * 8 / d / 1000 - 25 := by
    rw [hba]
    linarith
  calc ⌊(m : ℚ) * (6 / 10) * 8 / d / 1000⌋
      ≤ ⌊(m : ℚ) * (8 / 10) * 8 / d / 1000 - 25⌋ := Int.floor_le_floor hble
    _ = ⌊(m : ℚ) * (8 / 10) * 8 / d / 1000⌋ - 25 := by
        rw [show (25:ℚ) = ((25:ℤ):ℚ) by norm_num, Int.floor_sub_int]
    _ < ⌊(m : ℚ) * (8 / 10) * 8 / d / 1000⌋ := by omega

/-- C3 witness: at duration 120 s and ceiling 50,000,000 bytes with a
successful but oversized stage-1 encode, the stage-2 target (2000 kbps) is
strictly below the stage-1 target (2666 kbps). -/
theorem C3_stage2_lt_stage1_witness :
    stage2Target 50000000 120 < stage1Target 50000000 120 :=
  C3_stage2_lt_stage1 50000000 ⟨false, 0, some 120⟩ ⟨false, 0, true, 60000000⟩ 120
    rfl (by norm_num) (by rw [stage1Target_eval_120]; norm_num)
    rfl rfl rfl (by norm_num)

/-- C4: a stage-1 target bitrate below 100 kbps makes the planner return
`None` without invoking any encode, and a stage-2 target bitrate below
50 kbps makes the aggressive stage return `None` without invoking its
encode. -/
theorem C4_bitrate_floor_rejection :
    (∀ (ie : Bool) (m : ℕ) (probe : ProbeResult) (d : ℚ) (e1 e2 : EncodeResult),
        get_video_duration probe = some d →
        stage1Target m d < 100 →
        compress_video ie m probe e1 e2 = rejectNoEncode) ∧
    (∀ (m : ℕ) (d : ℚ) (e2 : EncodeResult),
        stage2Target m d < 50 →
        compress_aggressively m d e2 = rejectNoEncode) := by
  constructor
  · intro ie m probe d e1 e2 hdur hlow
    cases ie
    · simp [compress_video]
    · by_cases hd0 : d = 0
      · simp [compress_video, hdur, hd0]
      · simp [compress_video, hdur, hd0, hlow]
  · intro m d e2 hlow
    unfold compress_aggressively
    rw [if_pos hlow]

/-- C4 witness: duration 4000 s at ceiling 50,000,000 bytes yields a stage-1
target of 80 kbps and an immediate no-encode rejection; duration 50000 s
yields a stage-2 target of 4 kbps and an immediate no-encode rejection of
the aggressive stage. -/
theorem C4_bitrate_floor_rejection_witness :
    get_video_duration ⟨false, 0, some 4000⟩ = some 4000 ∧
    stage1Target 50000000 4000 < 100 ∧
    compress_video true 50000000 ⟨false, 0, some 4000⟩ ⟨false, 0, true, 0⟩ ⟨false, 0, true, 0⟩ =
      rejectNoEncode ∧
    stage2Target 50000000 50000 < 50 ∧
    compress_aggressively 50000000 50000 ⟨false, 0, true, 0⟩ = rejectNoEncode :=
  ⟨rfl, by rw [stage1Target_eval_4000]; norm_num,
    C4_bitrate_floor_rejection.1 true 50000000 ⟨false, 0, some 4000⟩ 4000
      ⟨false, 0, true, 0⟩ ⟨false, 0, true, 0⟩ rfl
      (by rw [stage1Target_eval_4000]; norm_num),
    by rw [stage2Target_eval_50000]; norm_num,
    C4_bitrate_floor_rejection.2 50000000 50000 ⟨false, 0, true, 0⟩
      (by rw [stage2Target_eval_50000]; norm_num)⟩

/-- C10: a missing probed duration or a probed duration of exactly 0.0 makes
the planner return `None` before any target bitrate is used: no encode is
invoked, so the division by the duration is never reached with a zero
divisor. -/
theorem C10_zero_duration_guard (ie : Bool) (m : ℕ) (probe : ProbeResult)
    (e1 e2 : EncodeResult)
    (h : get_video_duration probe = none ∨ get_video_duration probe = some 0) :
    compress_video ie m probe e1 e2 = rejectNoEncode := by
  rcases h with h | h
  · cases ie <;> simp [compress_video, h]
  · cases ie <;> simp [compress_video, h]

/-- C10 witness: a probe that exits non-zero yields no duration, and a probe
that reports duration 0.0 is equally rejected before any encode. -/
theorem C10_zero_duration_guard_witness :
    compress_video true 50000000 ⟨false, 1, some 5⟩ ⟨false, 0, true, 0⟩ ⟨false, 0, true, 0⟩ =
      rejectNoEncode ∧
    compress_video true 50000000 ⟨false, 0, some 0⟩ ⟨false, 0, true, 0⟩ ⟨false, 0, true, 0⟩ =
      rejectNoEncode :=
  ⟨C10_zero_duration_guard true 50000000 ⟨false, 1, some 5⟩ ⟨false, 0, true, 0⟩
      ⟨false, 0, true, 0⟩ (Or.inl rfl),
    C10_zero_duration_guard true 50000000 ⟨false, 0, some 0⟩ ⟨false, 0, true, 0⟩
      ⟨false, 0, true, 0⟩ (Or.inr rfl)⟩

/-- C7: a downloaded file of size exactly the 50MB ceiling does not trigger
compression (the trigger is a strict `>`), and a stage output is accepted
exactly when its size is at most `max_size_bytes` (the acceptance boundary
is inclusive), at both stages. -/
theorem C7_inclusive_boundaries :
    shouldCompress telegramMaxSize = false ∧
    (∀ (m : ℕ) (probe : ProbeResult) (d : ℚ) (e1 e2 : EncodeResult),
        get_video_duration probe = some d → d ≠ 0 →
        ¬ stage1Target m d < 100 →
        e1.raises = false → e1.returncode = 0 → e1.wroteFile = true →
        ((compress_video true m probe e1 e2).result = some OutPath.stage1 ↔
          e1.fileSize ≤ m)) ∧
    (∀ (m : ℕ) (d : ℚ) (e2 : EncodeResult),
        ¬ stage2Target m d < 50 →
        e2.raises = false → e2.returncode = 0 → e2.wroteFile = true →
        ((compress_aggressively m d e2).result = some OutPath.stage2 ↔
          e2.fileSize ≤ m)) := by
  refine ⟨by simp [shouldCompress], ?_, ?_⟩
  · intro m probe d e1 e2 hdur hd0 hlow hraise hrc hwrote
    by_cases hsz : e1.fileSize ≤ m
    · simp [compress_video, hdur, hd0, hlow, hraise, hrc, hwrote, hsz]
    · have hred : (compress_video true m probe e1 e2).result =
          (compress_aggressively m d e2).result := by
        simp [compress_video, hdur, hd0, hlow, hraise, hrc, hwrote, hsz]
      rw [hred]
      constructor
      · intro hres
        exact absurd hres (aggressive_result_ne_stage1 m d e2)
      · intro hres
        exact absurd hres hsz
  · intro m d e2 hlow hraise hrc hwrote
    by_cases hsz : e2.fileSize ≤ m
    · simp [compress_aggressively, hlow, hraise, hrc, hwrote, hsz]
    · simp [compress_aggressively, hlow, hraise, hrc, hwrote, hsz]

/-- C7 witness: with duration 120 s and ceiling 50,000,000 bytes, a stage-1
output of exactly 50,000,000 bytes is accepted, and the exact-ceiling
download size does not trigger compression. -/
theorem C7_inclusive_boundaries_witness :
    shouldCompress telegramMaxSize = false ∧
    (compress_video true 50000000 ⟨false, 0, some 120⟩ ⟨false, 0, true, 50000000⟩
        ⟨false, 0, true, 0⟩).result = some OutPath.stage1 :=
  ⟨C7_inclusive_boundaries.1,
    (C7_inclusive_boundaries.2.1 50000000 ⟨false, 0, some 120⟩ 120
        ⟨false, 0, true, 50000000⟩ ⟨false, 0, true, 0⟩ rfl (by norm_num)
        (by rw [stage1Target_eval_120]; norm_num) rfl rfl rfl).mpr (by norm_num)⟩

/-- Cleanup behaviour of the aggressive stage when a non-zero-exit encode is
assumed to leave no partial file. -/
theorem aggressive_cleanup (m : ℕ) (d : ℚ) (e2 : EncodeResult)
    (h2 : e2.returncode ≠ 0 → e2.wroteFile = false) :
    ((compress_aggressively m d e2).result = some OutPath.stage2 →
        (compress_aggressively m d e2).fs = ⟨false, true⟩) ∧
    ((compress_aggressively m d e2).result = none →
        (compress_aggressively m d e2).fs = ⟨false, false⟩) := by
  have hwf : ¬(e2.returncode = 0 ∧ e2.wroteFile = true) → e2.wroteFile = false := by
    intro hC
    by_cases hrc : e2.returncode = 0
    · cases hwf2 : e2.wroteFile
      · rfl
      · exact absurd ⟨hrc, hwf2⟩ hC
    · exact h2 hrc
  unfold compress_aggressively rejectNoEncode
  split_ifs with hA hB hC hD
  · simp
  · simp
  · simp
  · simp
  · have := hwf hC
    simp [this]

/-- C1 is refuted on the code: with a probed duration of 120 s under a
50,000,000-byte ceiling, a stage-1 encode that exits non-zero (code 1) yet
leaves a partial output file yields the rejected outcome `None` while the
rejected stage-1 encode output is still on disk — the non-zero-exit branch
performs no cleanup. -/
theorem C1_cleanup_counterexample :
    (compress_video true 50000000 ⟨false, 0, some 120⟩ ⟨false, 1, true, 0⟩
        ⟨false, 0, false, 0⟩).result = none ∧
    (compress_video true 50000000 ⟨false, 0, some 120⟩ ⟨false, 1, true, 0⟩
        ⟨false, 0, false, 0⟩).fs.stage1OnDisk = true := by
  have hlow : ¬ stage1Target 50000000 120 < 100 := by
    rw [stage1Target_eval_120]
    norm_num
  have h120 : ¬ (120 : ℚ) = 0 := by norm_num
  constructor <;> simp [compress_video, get_video_duration, hlow, h120]

/-- C1 amended: in the branches where the encode tool exits zero the planner
does clean up — an accepted outcome leaves exactly the accepted file on disk
and a rejection leaves none — provided every non-zero-exit encode left no
partial output file; when a non-zero-exit encode does leave a partial file,
that file is not deleted. -/
theorem C1_cleanup_amended (ie : Bool) (m : ℕ) (probe : ProbeResult)
    (e1 e2 : EncodeResult)
    (h1 : e1.returncode ≠ 0 → e1.wroteFile = false)
    (h2 : e2.returncode ≠ 0 → e2.wroteFile = false) :
    ((compress_video ie m probe e1 e2).result = some OutPath.stage1 →
        (compress_video ie m probe e1 e2).fs = ⟨true, false⟩) ∧
    ((compress_video ie m probe e1 e2).result = some OutPath.stage2 →
        (compress_video ie m probe e1 e2).fs = ⟨false, true⟩) ∧
    ((compress_video ie m probe e1 e2).result = none →
        (compress_video ie m probe e1 e2).fs = ⟨false, false⟩) := by
  have hwf1 : ¬(e1.returncode = 0 ∧ e1.wroteFile = true) → e1.wroteFile = false := by
    intro hC
    by_cases hrc : e1.returncode = 0
    · cases hwf2 : e1.wroteFile
      · rfl
      · exact absurd ⟨hrc, hwf2⟩ hC
    · exact h1 hrc
  cases ie
  · simp [compress_video, rejectNoEncode]
  · rcases hdur : get_video_duration probe with _ | d
    · simp [compress_video, hdur, rejectNoEncode]
    · by_cases hd0 : d = 0
      · simp [compress_video, hdur, hd0, rejectNoEncode]
      · by_cases hlow : stage1Target m d < 100
        · simp [compress_video, hdur, hd0, hlow, rejectNoEncode]
        · by_cases hr : e1.raises = true
          · simp [compress_video, hdur, hd0, hlow, hr]
          · have hr' : e1.raises = false := by
              cases hrr : e1.raises
              · rfl
              · exact absurd hrr hr
            by_cases hok : e1.returncode = 0 ∧ e1.wroteFile = true
            · by_cases hsz : e1.fileSize ≤ m
              · simp [compress_video, hdur, hd0, hlow, hr', hok, hsz]
              · have hred : compress_video true m probe e1 e2 =
                    { result := (compress_aggressively m d e2).result,
                      fs := (compress_aggressively m d e2).fs,
                      stage1Invoked := true,
                      stage2Invoked := (compress_aggressively m d e2).stage2Invoked } := by
                  simp [compress_video, hdur, hd0, hlow, hr', hok, hsz]
                rw [hred]
                exact ⟨fun hres => absurd hres (aggressive_result_ne_stage1 m d e2),
                  fun hres => (aggressive_cleanup m d e2 h2).1 hres,
                  fun hres => (aggressive_cleanup m d e2 h2).2 hres⟩
            · have hwf := hwf1 hok
              simp [compress_video, hdur, hd0, hlow, hr', hok, hwf]

/-- C1 amended witness: with both encodes well-behaved and a small accepted
stage-1 output, exactly the accepted file remains on disk. -/
theorem C1_cleanup_amended_witness :
    (compress_video true 50000000 ⟨false, 0, some 120⟩ ⟨false, 0, true, 10⟩
        ⟨false, 0, true, 10⟩).fs = ⟨true, false⟩ :=
  (C1_cleanup_amended true 50000000 ⟨false, 0, some 120⟩ ⟨false, 0, true, 10⟩
    ⟨false, 0, true, 10⟩ (by decide) (by decide)).1
    (by
      have hlow : ¬ stage1Target 50000000 120 < 100 := by
        rw [stage1Target_eval_120]
        norm_num
      have h120 : ¬ (120 : ℚ) = 0 := by norm_num
      simp [compress_video, get_video_duration, hlow, h120])

/-- C8 is refuted on the code: a probe failure (raised probe invocation, a
`ProbeError` in the spec's taxonomy) and a bitrate-floor/size-budget
rejection produce the very same outcome — the single untyped failure value
`None` with an identical trace — so the caller cannot distinguish the typed
failure kinds the claim requires. -/
theorem C8_failure_indistinguishable_counterexample :
    get_video_duration ⟨true, 0, some 120⟩ = none ∧
    get_video_duration ⟨false, 0, some 4000⟩ = some 4000 ∧
    (⟨true, 0, some 120⟩ : ProbeResult) ≠ ⟨false, 0, some 4000⟩ ∧
    compress_video true 50000000 ⟨true, 0, some 120⟩ ⟨false, 0, true, 0⟩ ⟨false, 0, true, 0⟩ =
      compress_video true 50000000 ⟨false, 0, some 4000⟩ ⟨false, 0, true, 0⟩
        ⟨false, 0, true, 0⟩ := by
  refine ⟨rfl, rfl, by simp, ?_⟩
  have h1 : compress_video true 50000000 ⟨true, 0, some 120⟩ ⟨false, 0, true, 0⟩
      ⟨false, 0, true, 0⟩ = rejectNoEncode := by
    simp [compress_video, get_video_duration]
  have hlow : stage1Target 50000000 4000 < 100 := by
    rw [stage1Target_eval_4000]
    norm_num
  have h4000 : ¬ (4000 : ℚ) = 0 := by norm_num
  have h2 : compress_video true 50000000 ⟨false, 0, some 4000⟩ ⟨false, 0, true, 0⟩
      ⟨false, 0, true, 0⟩ = rejectNoEncode := by
    simp [compress_video, get_video_duration, hlow, h4000]
  rw [h1, h2]

/-- An encode invocation fails when it raises, exits non-zero, or leaves no
output file at the output path — the three failure modes of the external
encode tool (`EncodeFailure` in the spec's taxonomy). -/
def encodeFailed (e : EncodeResult) : Prop :=
  e.raises = true ∨ e.returncode ≠ 0 ∨ e.wroteFile = false

/-- A failed encode never satisfies the code's acceptance test
`returncode == 0 and os.path.exists(output_path)` unless it raised first. -/
theorem encodeFailed_not_ok {e : EncodeResult} (hr : ¬ e.raises = true)
    (h : encodeFailed e) : ¬ (e.returncode = 0 ∧ e.wroteFile = true) := by
  rcases h with h | h | h
  · exact absurd h hr
  · intro hc
    exact h hc.1
  · intro hc
    rw [h] at hc
    exact Bool.false_ne_true hc.2

/-- C8 amended: every external-process failure in the pipeline — a raised
extraction or download, a raised, non-zero-exit or unparseable probe, and a
raised, non-zero-exit or output-less encode at either stage — is caught at
the component boundary and converted to the single untyped failure outcome
`None`; no raw error propagates to the caller, but the failure kinds are not
distinguishable. -/
theorem C8_boundary_conversion_amended :
    (∀ p : ProbeResult,
        p.raises = true ∨ p.returncode ≠ 0 ∨ p.durationField = none →
        get_video_duration p = none) ∧
    (∀ (ie : Bool) (m : ℕ) (p : ProbeResult) (e1 e2 : EncodeResult),
        get_video_duration p = none →
        compress_video ie m p e1 e2 = rejectNoEncode) ∧
    (∀ (ie : Bool) (m : ℕ) (p : ProbeResult) (e1 e2 : EncodeResult),
        encodeFailed e1 → (compress_video ie m p e1 e2).result = none) ∧
    (∀ (m : ℕ) (d : ℚ) (e2 : EncodeResult),
        encodeFailed e2 → (compress_aggressively m d e2).result = none) ∧
    (∀ info : Option VideoInfo, get_video_info true info = none) ∧
    (∀ r : Option String, download_video true r = none) := by
  refine ⟨?_, ?_, ?_, ?_, ?_, ?_⟩
  · intro p h
    rcases h with h | h | h
    · simp [get_video_duration, h]
    · cases hr : p.raises <;> simp [get_video_duration, hr, h]
    · cases hr : p.raises <;> by_cases hrc : p.returncode = 0 <;>
        simp [get_video_duration, hr, hrc, h]
  · intro ie m p e1 e2 h
    cases ie <;> simp [compress_video, h]
  · intro ie m p e1 e2 h
    cases ie
    · simp [compress_video, rejectNoEncode]
    · rcases hdur : get_video_duration p with _ | d
      · simp [compress_video, hdur, rejectNoEncode]
      · by_cases hd0 : d = 0
        · simp [compress_video, hdur, hd0, rejectNoEncode]
        · by_cases hlow : stage1Target m d < 100
          · simp [compress_video, hdur, hd0, hlow, rejectNoEncode]
          · by_cases hr : e1.raises = true
            · simp [compress_video, hdur, hd0, hlow, hr]
            · have hr' : e1.raises = false := by
                cases hrr : e1.raises
                · rfl
                · exact absurd hrr hr
              have hok := encodeFailed_not_ok hr h
              simp [compress_video, hdur, hd0, hlow, hr', hok]
  · intro m d e2 h
    by_cases hlow : stage2Target m d < 50
    · simp [compress_aggressively, hlow, rejectNoEncode]
    · by_cases hr : e2.raises = true
      · simp [compress_aggressively, hlow, hr]
      · have hr' : e2.raises = false := by
          cases hrr : e2.raises
          · rfl
          · exact absurd hrr hr
        have hok := encodeFailed_not_ok hr h
        simp [compress_aggressively, hlow, hr', hok]
  · intro info
    simp [get_video_info]
  · intro r
    simp [download_video]

/-- C8 amended witness: a raised probe is converted to `None`, the planner
rejects without propagating, a non-zero-exit stage-1 encode and an
output-less aggressive encode each convert to `None`, and a raised
extraction converts to `None`. -/
theorem C8_boundary_conversion_amended_witness :
    get_video_duration ⟨true, 0, some 5⟩ = none ∧
    compress_video true 1000 ⟨true, 0, some 5⟩ ⟨false, 0, true, 0⟩ ⟨false, 0, true, 0⟩ =
      rejectNoEncode ∧
    (compress_video true 50000000 ⟨false, 0, some 120⟩ ⟨false, 1, true, 0⟩
        ⟨false, 0, true, 0⟩).result = none ∧
    (compress_aggressively 50000000 120 ⟨false, 0, false, 0⟩).result = none ∧
    get_video_info true (some ⟨"t", none, "u", []⟩) = none :=
  ⟨C8_boundary_conversion_amended.1 ⟨true, 0, some 5⟩ (Or.inl rfl),
    C8_boundary_conversion_amended.2.1 true 1000 ⟨true, 0, some 5⟩ ⟨false, 0, true, 0⟩
      ⟨false, 0, true, 0⟩
      (C8_boundary_conversion_amended.1 ⟨true, 0, some 5⟩ (Or.inl rfl)),
    C8_boundary_conversion_amended.2.2.1 true 50000000 ⟨false, 0, some 120⟩
      ⟨false, 1, true, 0⟩ ⟨false, 0, true, 0⟩ (Or.inr (Or.inl (by decide))),
    C8_boundary_conversion_amended.2.2.2.1 50000000 120 ⟨false, 0, false, 0⟩
      (Or.inr (Or.inr rfl)),
    C8_boundary_conversion_amended.2.2.2.2.1 (some ⟨"t", none, "u", []⟩)⟩

/-- C5: the format filter's output contains no format with video codec
"none", missing/empty url, a note containing the case-insensitive substring
"unavailable", a height strictly between 0 and 144, or a filesize equal to
0; and every format failing none of these checks is retained. -/
theorem C5_filter_correct (fmts : List MediaFormat) :
    (∀ f ∈ valid_formats fmts, ¬ specBadFormat f) ∧
    (∀ f ∈ fmts, ¬ specBadFormat f → f ∈ valid_formats fmts) := by
  constructor
  · intro f hf
    exact (is_format_downloadable_iff f).mp (List.mem_filter.mp hf).2
  · intro f hf hgood
    exact List.mem_filter.mpr ⟨hf, (is_format_downloadable_iff f).mpr hgood⟩

/-- A clean 720p format used as a concrete test vector. -/
def fmt720 : MediaFormat :=
  ⟨"hd720", some "avc1", some "u720", "", some 720, "mp4", some 1800⟩

/-- A clean 480p format used as a concrete test vector. -/
def fmt480 : MediaFormat :=
  ⟨"hd480", some "avc1", some "u480", "", some 480, "mp4", some 900⟩

/-- An audio-only format (vcodec "none") used as a concrete test vector. -/
def fmtAudio : MediaFormat :=
  ⟨"audio", some "none", some "ua", "", none, "m4a", some 500⟩

/-- A format marked "Unavailable in your region" used as a test vector. -/
def fmtUnavailable : MediaFormat :=
  ⟨"geo", some "avc1", some "ug", "Unavailable in your region", some 1080, "mp4", some 2000⟩

/-- C5 witness: a clean 720p format passes every check and is retained,
while an audio-only and an "Unavailable"-note format are bad. -/
theorem C5_filter_correct_witness :
    ¬ specBadFormat fmt720 ∧ specBadFormat fmtAudio ∧ specBadFormat fmtUnavailable ∧
    fmt720 ∈ valid_formats [fmtAudio, fmt720, fmtUnavailable] :=
  ⟨by decide, by decide, by decide,
    (C5_filter_correct [fmtAudio, fmt720, fmtUnavailable]).2 fmt720
      (by decide) (by decide)⟩

/-- C6: the ranked output is sorted by non-increasing height (absent height
treated as 0), formats of equal height keep their original relative order
(stability, stated per height class), and the output is a permutation of the
input. -/
theorem C6_rank_sorted_stable (l : List MediaFormat) :
    (sortFormats l).Pairwise heightGE ∧
    (∀ h : ℤ, (sortFormats l).filter (fun g => heightKey g = h) =
        l.filter (fun g => heightKey g = h)) ∧
    (sortFormats l).Perm l :=
  ⟨sortFormats_pairwise l, fun h => sortFormats_filter_eq l h, sortFormats_perm l⟩

/-- C9: with strictly more than one good format (height ≥ 360) the pipeline
signals that a selection is required, offering at most the top five good
formats in rank order plus the synthetic best option; with at most one good
format it proceeds directly to download with the "best" selector. -/
theorem C9_selection_policy (l : List MediaFormat) :
    (1 < (good_formats (sortFormats l)).length →
        handle_url_selection l =
          PipelineAction.selectionRequired ((good_formats (sortFormats l)).take 5) true ∧
        ((good_formats (sortFormats l)).take 5).length ≤ 5) ∧
    ((good_formats (sortFormats l)).length ≤ 1 →
        handle_url_selection l = PipelineAction.autoDownload "best") := by
  constructor
  · intro h
    refine ⟨by simp [handle_url_selection, h], ?_⟩
    rw [List.length_take]
    exact min_le_left 5 _
  · intro h
    have h' : ¬ 1 < (good_formats (sortFormats l)).length := by omega
    simp [handle_url_selection, h']

/-- C9 witness: the spec's end-to-end example — exactly two good formats of
heights 480 and 720 give a selection request ranked 720 before 480 with the
synthetic best option, and a single good format downloads directly. -/
theorem C9_selection_policy_witness :
    handle_url_selection [fmt480, fmt720] =
      PipelineAction.selectionRequired [fmt720, fmt480] true ∧
    handle_url_selection [fmt720] = PipelineAction.autoDownload "best" := by
  refine ⟨?_, (C9_selection_policy [fmt720]).2 (by decide)⟩
  have h := ((C9_selection_policy [fmt480, fmt720]).1 (by decide)).1
  rw [h]
  decide
